import Mathlib

/-!
# Verification of `nerfstudio/pipelines/base_pipeline.py`

A shallow embedding of the evaluation / aggregation / checkpoint-loading
logic of `VanillaPipeline` (and the abstract `Pipeline` base class) from
`src/nerfstudio/pipelines/base_pipeline.py`, together with theorems
settling the frozen claims about that code.

Conventions of the embedding:
* Python dicts with string keys are association lists `List (String × α)`
  in insertion order; `dlookup` is `d[k]` (first matching key), returning
  `none` where Python would raise `KeyError`.
* Metric values (Python ints/floats) are modelled as rationals `ℚ`.
* A Python `assert` failure / uncaught exception is modelled by `Option`:
  `none` means the operation aborts with no partial result.
* The model's train/eval mode (`self.train()` / `self.eval()`) is the
  `Mode` component of an explicit state threaded through the code.
-/

set_option autoImplicit false

namespace Nerfstudio

/-- The train/inference mode of an `nn.Module` (`self.train()` / `self.eval()`). -/
inductive Mode where
  | train
  | eval
deriving DecidableEq, Repr

/-- A Python metrics dict: string keys to scalar values, in insertion order. -/
abbrev MetricsDict := List (String × ℚ)

/-- `d[k]` on an association list: the value at the first matching key. -/
def dlookup {α : Type} (k : String) : List (String × α) → Option α
  | [] => none
  | kv :: rest => if kv.1 = k then some kv.2 else dlookup k rest

/-- The key set (in insertion order) of a dict. -/
def keys {α : Type} (d : List (String × α)) : List String :=
  d.map Prod.fst

@[simp] theorem dlookup_nil {α : Type} (k : String) : dlookup (α := α) k [] = none := rfl

@[simp] theorem dlookup_cons {α : Type} (k : String) (kv : String × α) (rest : List (String × α)) :
    dlookup k (kv :: rest) = if kv.1 = k then some kv.2 else dlookup k rest := rfl

theorem dlookup_append_some {α : Type} {k : String} {a : List (String × α)} {v : α}
    (b : List (String × α)) (h : dlookup k a = some v) : dlookup k (a ++ b) = some v := by
  induction a with
  | nil => simp at h
  | cons kv a ih =>
    by_cases hk : kv.1 = k <;> simp_all

theorem dlookup_append_none {α : Type} {k : String} {a : List (String × α)}
    (b : List (String × α)) (h : dlookup k a = none) : dlookup k (a ++ b) = dlookup k b := by
  induction a with
  | nil => simp
  | cons kv a ih =>
    by_cases hk : kv.1 = k <;> simp_all

/-!
## Metric-key injection (lines 362-365 and 535-543 of `base_pipeline.py`)

The source guards every injection with `assert key not in metrics_dict`
before writing `metrics_dict[key] = value`.  `injectKey` returns `none`
exactly when that assert fires; otherwise it appends the new entry
(Python dicts keep insertion order).
-/

/-- `assert k not in d; d[k] = v` — `none` models the `AssertionError`. -/
def injectKey {α : Type} (k : String) (v : α) (d : List (String × α)) :
    Option (List (String × α)) :=
  if (dlookup k d).isSome then none else some (d ++ [(k, v)])

theorem injectKey_of_absent {α : Type} {k : String} {d : List (String × α)} (v : α)
    (h : dlookup k d = none) : injectKey k v d = some (d ++ [(k, v)]) := by
  simp [injectKey, h]

theorem injectKey_of_present {α : Type} {k : String} {d : List (String × α)} (v w : α)
    (h : dlookup k d = some w) : injectKey k v d = none := by
  simp [injectKey, h]

theorem dlookup_inject_self {α : Type} {k : String} {d : List (String × α)} (v : α)
    (h : dlookup k d = none) : dlookup k (d ++ [(k, v)]) = some v := by
  rw [dlookup_append_none _ h]; simp

theorem dlookup_inject_other {α : Type} {k k' : String} {d : List (String × α)} (v : α)
    (hne : k ≠ k') (h : dlookup k' d = none) : dlookup k' (d ++ [(k, v)]) = none := by
  rw [dlookup_append_none _ h]; simp [hne]

/-!
## `VanillaPipeline.get_eval_image_metrics_and_images` (lines 342-367)

Only the metrics-dict plumbing is modelled: the model render produces some
dict `md` (`get_image_metrics_and_images`), then the pipeline injects
`image_idx` (the index returned by `next_eval_image`), asserting absence,
then `num_rays` (`len(camera_ray_bundle)`, i.e. `height * width`),
asserting absence.  `none` models an `AssertionError` aborting the call.
-/

def get_eval_image_metrics_and_images (image_idx : ℕ) (height width : ℕ)
    (md : MetricsDict) : Option MetricsDict :=
  (injectKey "image_idx" (image_idx : ℚ) md).bind
    (fun d => injectKey "num_rays" ((height * width : ℕ) : ℚ) d)

/-!
## Per-image throughput injection inside `get_average_eval_image_metrics`
(lines 535-543)

After the final render, the loop injects `num_rays_per_sec =
num_rays / elapsed` (with `num_rays = height * width` computed at line
395-396 from the native-resolution bundle) and then `fps =
metrics_dict["num_rays_per_sec"] / (height * width)`; the value read back
for `fps` is the one just inserted, so it is used directly here.  Each
injection is guarded by an `assert key not in metrics_dict`.
-/

def injectThroughput (height width : ℕ) (elapsed : ℚ) (md : MetricsDict) :
    Option MetricsDict :=
  let num_rays : ℚ := ((height * width : ℕ) : ℚ)
  (injectKey "num_rays_per_sec" (num_rays / elapsed) md).bind
    (fun d => injectKey "fps" (num_rays / elapsed / ((height * width : ℕ) : ℚ)) d)

/-!
## Metrics aggregation (lines 547-559)

```python
metrics_dict = {}
for key in metrics_dict_list[0].keys():
    metrics_dict[key] = float(torch.mean(torch.tensor(
        [metrics_dict[key] for metrics_dict in metrics_dict_list])))
```

`metrics_dict_list[0]` raises `IndexError` on an empty list, and the
comprehension raises `KeyError` when any dict lacks a key of the first
dict; both are modelled by `none`.  Keys absent from the first dict are
never consulted.  `torch.mean` of the gathered values is their sum
divided by their count.
-/

/-- `[d[k] for d in l]` — `none` models the `KeyError`. -/
def lookupAll (k : String) : List MetricsDict → Option (List ℚ)
  | [] => some []
  | d :: ds => (dlookup k d).bind (fun v => (lookupAll k ds).map (fun vs => v :: vs))

/-- The aggregation loop body: one output entry per key of the first dict. -/
def aggKeys (l : List MetricsDict) : List (String × ℚ) → Option MetricsDict
  | [] => some []
  | kv :: rest =>
    (lookupAll kv.1 l).bind fun vs =>
      (aggKeys l rest).map fun m => (kv.1, vs.sum / (vs.length : ℚ)) :: m

/-- The metrics-averaging step of `get_average_eval_image_metrics`. -/
def aggregateMetrics : List MetricsDict → Option MetricsDict
  | [] => none
  | d0 :: rest => aggKeys (d0 :: rest) d0

@[simp] theorem lookupAll_nil (k : String) : lookupAll k [] = some [] := rfl

theorem lookupAll_of_miss {k : String} {l : List MetricsDict} {d : MetricsDict}
    (hd : d ∈ l) (hmiss : dlookup k d = none) : lookupAll k l = none := by
  induction l with
  | nil => cases hd
  | cons d' ds ih =>
    rcases List.mem_cons.mp hd with h | h
    · subst h; simp [lookupAll, hmiss]
    · cases hv : dlookup k d' <;> simp [lookupAll, hv, ih h]

theorem lookupAll_length {k : String} {l : List MetricsDict} {vs : List ℚ}
    (h : lookupAll k l = some vs) : vs.length = l.length := by
  induction l generalizing vs with
  | nil => simp [lookupAll] at h; simp [← h]
  | cons d ds ih =>
    simp only [lookupAll, Option.bind_eq_some, Option.map_eq_some'] at h
    obtain ⟨v, _, ws, hws, rfl⟩ := h
    simp [ih hws]

theorem aggKeys_none_of_miss {l : List MetricsDict} {k : String}
    (hall : lookupAll k l = none) :
    ∀ d0 : List (String × ℚ), k ∈ keys d0 → aggKeys l d0 = none := by
  intro d0
  induction d0 with
  | nil => intro h; simp [keys] at h
  | cons kv rest ih =>
    intro hk
    by_cases hkv : kv.1 = k
    · subst hkv; simp [aggKeys, hall]
    · have : k ∈ keys rest := by
        simp only [keys, List.map_cons, List.mem_cons] at hk
        exact hk.resolve_left (fun h => hkv h.symm)
      cases hv : lookupAll kv.1 l <;> simp [aggKeys, hv, ih this]

theorem aggKeys_lookup {l : List MetricsDict} {k : String} {vs : List ℚ}
    (hvs : lookupAll k l = some vs) :
    ∀ d0 : List (String × ℚ), ∀ m : MetricsDict, aggKeys l d0 = some m → k ∈ keys d0 →
      dlookup k m = some (vs.sum / (vs.length : ℚ)) := by
  intro d0
  induction d0 with
  | nil => intro m _ hk; simp [keys] at hk
  | cons kv rest ih =>
    intro m hm hk
    simp only [aggKeys, Option.bind_eq_some, Option.map_eq_some'] at hm
    obtain ⟨ws, hws, m', hm', rfl⟩ := hm
    by_cases hkv : kv.1 = k
    · subst hkv
      rw [hvs] at hws
      cases hws
      simp
    · have hkrest : k ∈ keys rest := by
        simp only [keys, List.map_cons, List.mem_cons] at hk
        exact hk.resolve_left (fun h => hkv h.symm)
      simp only [dlookup_cons, if_neg hkv]
      exact ih m' hm' hkrest

/-!
## The per-image evaluation state machine
(lines 369-546 of `base_pipeline.py`)

The state threads the pieces of mutable pipeline state the loop touches:
the model's train/eval mode, the camera's output-resolution scale factor
(`eval_ray_generator.cameras`, multiplied by every call to
`rescale_output_resolution`), the resolution tag of the local variable
`camera_ray_bundle` (the scale factor the bundle was last fetched at,
relative to native resolution), and whether the ephemeral
`embedding_appearance_eval` module currently exists.

`rescale_output_resolution` and `get_eval_image` live outside `src/`;
they are modelled from the spec: rescaling multiplies the camera's
resolution scale factor by the given factor ("scale down by f, then by
1/f"), and `get_eval_image(idx, scale_factor)` yields a bundle at the
requested scale ("re-fetch (rays, batch) at the scaled resolution").
-/

/-- The fields of `VanillaPipelineConfig` read by the evaluation loop. -/
structure Config where
  eval_optimize_cameras : Bool
  eval_num_pose_iters : ℕ
  eval_optimize_appearance : Bool
  eval_num_appearance_iters : ℕ
  eval_image_scale_factor : ℚ
deriving DecidableEq, Repr

/-- The mutable pipeline state touched by the evaluation loop. -/
structure LoopState where
  mode : Mode
  camScale : ℚ
  bundleScale : ℚ
  appearance_embedding : Bool
deriving DecidableEq, Repr

/-- One optimization loop (lines 429-455 / 482-517): every iteration
re-fetches `camera_ray_bundle` via
`get_eval_image(idx, scale_factor=eval_image_scale_factor)`, reassigning
the loop variable to a bundle at the scaled resolution; no iteration
touches the camera scale or the mode. -/
def optIter (cfg : Config) : ℕ → LoopState → LoopState
  | 0, s => s
  | n + 1, s => optIter cfg n { s with bundleScale := cfg.eval_image_scale_factor }

/-- The camera-pose test-time optimization branch (lines 399-460):
rescale the camera by `eval_image_scale_factor`, `self.train()`, run the
pose iterations, rescale by its reciprocal, `self.eval()`. -/
def pose_opt (cfg : Config) (s : LoopState) : LoopState :=
  if cfg.eval_optimize_cameras then
    let s1 := { s with camScale := s.camScale * cfg.eval_image_scale_factor }
    let s2 := { s1 with mode := Mode.train }
    let s3 := optIter cfg cfg.eval_num_pose_iters s2
    let s4 := { s3 with camScale := s3.camScale * (1 / cfg.eval_image_scale_factor) }
    { s4 with mode := Mode.eval }
  else s

/-- The appearance test-time optimization branch (lines 462-525):
rescale the camera, `self.train()`, create the ephemeral eval appearance
embedding, run the appearance iterations, rescale by the reciprocal,
set `embedding_appearance_eval = None`, `self.eval()`. -/
def appearance_opt (cfg : Config) (s : LoopState) : LoopState :=
  if cfg.eval_optimize_appearance then
    let s1 := { s with camScale := s.camScale * cfg.eval_image_scale_factor }
    let s2 := { s1 with mode := Mode.train }
    let s3 := { s2 with appearance_embedding := true }
    let s4 := optIter cfg cfg.eval_num_appearance_iters s3
    let s5 := { s4 with camScale := s4.camScale * (1 / cfg.eval_image_scale_factor) }
    let s6 := { s5 with appearance_embedding := false }
    { s6 with mode := Mode.eval }
  else s

/-- The state effect of one iteration of the image loop (lines 391-546):
fetch the native-resolution bundle (`get_eval_image(idx)`), then run the
two optional optimization branches.  Metric bookkeeping is modelled
separately. -/
def eval_image_step (cfg : Config) (s : LoopState) : LoopState :=
  appearance_opt cfg (pose_opt cfg { s with bundleScale := 1 })

/-- A call of `model.get_outputs_for_camera_ray_bundle`: the resolution
scale of the bundle it is given and whether it runs under
`torch.no_grad()`. -/
structure RenderCall where
  scale : ℚ
  noGrad : Bool
deriving DecidableEq, Repr

/-- The final metrics-computing render of one image (lines 527-534): it
runs inside `with torch.no_grad():` and consumes whatever bundle the
local variable `camera_ray_bundle` holds after the optimization
branches. -/
def final_render (cfg : Config) (s : LoopState) : RenderCall :=
  { scale := (eval_image_step cfg s).bundleScale, noGrad := true }

/-- The image loop of `get_average_eval_image_metrics`, iterated over
`num_images` images. -/
def evalLoop (cfg : Config) : ℕ → LoopState → LoopState
  | 0, s => s
  | n + 1, s => evalLoop cfg n (eval_image_step cfg s)

/-- `VanillaPipeline.get_average_eval_image_metrics` (lines 369-570),
restricted to the state it mutates and the metrics it aggregates:
`self.eval()` at entry, the per-image loop, aggregation of the collected
per-image metrics dicts `mdl` (an exception there propagates before
`self.train()` is reached), then `self.train()` and return. -/
def get_average_eval_image_metrics (cfg : Config) (num_images : ℕ) (s : LoopState)
    (mdl : List MetricsDict) : Option (LoopState × MetricsDict) :=
  let s1 := { s with mode := Mode.eval }
  let s2 := evalLoop cfg num_images s1
  (aggregateMetrics mdl).map (fun m => ({ s2 with mode := Mode.train }, m))

/-!
## Traces of `get_train_loss_dict` / `get_eval_loss_dict`

The base-class versions (`Pipeline`, lines 118-158) and the overriding
`VanillaPipeline` versions (lines 282-315 and 324-340) are modelled as
the sequence of externally visible effects they perform, in source
order; `runMode` folds a trace over the model's mode.
-/

/-- An externally visible effect of a loss-dict call. -/
inductive Ev where
  | setEpochTrain : ℕ → Ev
  | setEpochEval : ℕ → Ev
  | nextTrain : ℕ → Ev
  | nextEval : ℕ → Ev
  | setMode : Mode → Ev
deriving DecidableEq, Repr

/-- `Pipeline.get_train_loss_dict` (lines 118-137):
`if self.world_size > 1 and step:` call `train_sampler.set_epoch(step)`,
then `next_train(step)`. -/
def Pipeline.get_train_loss_dict (world_size step : ℕ) : List Ev :=
  (if 1 < world_size ∧ step ≠ 0 then [Ev.setEpochTrain step] else []) ++ [Ev.nextTrain step]

/-- `Pipeline.get_eval_loss_dict` (lines 139-158): `self.eval()`, then
`if self.world_size > 1:` call `eval_sampler.set_epoch(step)`, then
`next_eval(step)`, then `self.train()`. -/
def Pipeline.get_eval_loss_dict (world_size step : ℕ) : List Ev :=
  [Ev.setMode Mode.eval]
    ++ (if 1 < world_size then [Ev.setEpochEval step] else [])
    ++ [Ev.nextEval step, Ev.setMode Mode.train]

/-- `VanillaPipeline.get_train_loss_dict` (lines 282-315): fetches
`next_train(step)` directly; it never consults a sampler. -/
def VanillaPipeline.get_train_loss_dict (step : ℕ) : List Ev :=
  [Ev.nextTrain step]

/-- `VanillaPipeline.get_eval_loss_dict` (lines 324-340): `self.eval()`,
`next_eval(step)`, `self.train()`; it never consults a sampler. -/
def VanillaPipeline.get_eval_loss_dict (step : ℕ) : List Ev :=
  [Ev.setMode Mode.eval, Ev.nextEval step, Ev.setMode Mode.train]

/-- The model's mode after running a trace from an initial mode. -/
def runMode (init : Mode) (evs : List Ev) : Mode :=
  evs.foldl (fun m e => match e with | Ev.setMode m2 => m2 | _ => m) init

/-!
## `VanillaPipeline.load_pipeline` (lines 572-599)

```python
state = {key.replace("module.", ""): value for key, value in loaded_state.items()}
if self.test_mode == "inference":
    state.pop(<six keys>, None)
self.load_state_dict(state)
```

`str.replace` removes every (non-overlapping, left-to-right) occurrence
of the substring `"module."`, not only a leading one; `stripModuleOcc`
implements exactly that over the key's characters.  The six `pop` calls
are a filter on the six fixed keys.  `load_state_dict` itself is
external; the value passed to it is the function's result.
-/

/-- Python `key.replace("module.", "")`: delete every occurrence of the
7-character pattern `module.`, scanning left to right. -/
def stripModuleOcc : List Char → List Char
  | 'm' :: 'o' :: 'd' :: 'u' :: 'l' :: 'e' :: '.' :: rest => stripModuleOcc rest
  | c :: rest => c :: stripModuleOcc rest
  | [] => []

/-- `key.replace("module.", "")` lifted to strings. -/
def pyReplaceModule (s : String) : String :=
  String.mk (stripModuleOcc s.toList)

/-- Modelled from the spec: the spec's §4.5 describes the first step of
`load_pipeline` as "strip a distributed-wrapper name prefix if present"
— i.e. remove one leading `module.` and touch nothing else.  This
definition follows the spec's words; it exists only to be compared with
the source's `pyReplaceModule`. -/
def specStripModule (s : String) : String :=
  match s.toList with
  | 'm' :: 'o' :: 'd' :: 'u' :: 'l' :: 'e' :: '.' :: rest => String.mk rest
  | _ => s

/-- The six training-time bookkeeping keys popped in inference mode
(lines 582-598). -/
def prunedKeys : List String :=
  ["datamanager.train_camera_optimizer.pose_adjustment",
   "datamanager.train_ray_generator.image_coords",
   "datamanager.train_ray_generator.pose_optimizer.pose_adjustment",
   "datamanager.eval_camera_optimizer.pose_adjustment",
   "datamanager.eval_ray_generator.image_coords",
   "datamanager.eval_ray_generator.pose_optimizer.pose_adjustment"]

/-- `VanillaPipeline.load_pipeline`: the state dict actually passed on to
`load_state_dict`, as a function of the pipeline's `test_mode` and the
checkpoint's flat mapping. -/
def load_pipeline {α : Type} (test_mode : String) (loaded_state : List (String × α)) :
    List (String × α) :=
  let state := loaded_state.map (fun kv => (pyReplaceModule kv.1, kv.2))
  if test_mode = "inference" then
    state.filter (fun kv => decide (kv.1 ∉ prunedKeys))
  else state

/-!
## Claim theorems
-/

/-- A config with camera-pose test-time optimization enabled, at the
default hyperparameters (10 pose iterations, scale factor 0.125). -/
def cfgPose : Config :=
  { eval_optimize_cameras := true, eval_num_pose_iters := 10,
    eval_optimize_appearance := false, eval_num_appearance_iters := 10,
    eval_image_scale_factor := 1/8 }

/-- A config with both test-time optimizations disabled. -/
def cfgOff : Config :=
  { eval_optimize_cameras := false, eval_num_pose_iters := 10,
    eval_optimize_appearance := false, eval_num_appearance_iters := 10,
    eval_image_scale_factor := 1/8 }

/-- The pipeline state at the top of the image loop: model already in
eval mode, camera at native scale, no ephemeral appearance embedding. -/
def initState : LoopState :=
  { mode := Mode.eval, camScale := 1, bundleScale := 1, appearance_embedding := false }

/-- An optimization loop only reassigns the bundle variable: with at
least one iteration the bundle ends at the configured scale factor, and
the rest of the state is untouched. -/
theorem optIter_eq (cfg : Config) (n : ℕ) (s : LoopState) :
    optIter cfg n s =
      { s with bundleScale :=
          if n = 0 then s.bundleScale else cfg.eval_image_scale_factor } := by
  induction n generalizing s with
  | zero => rfl
  | succ n ih =>
    rw [optIter, ih]
    by_cases h : n = 0 <;> simp [h]

/-- C1: the code evaluated at the failing input.  With camera-pose
optimization enabled (10 iterations, scale factor 1/8), the final
metrics-computing render consumes the ray bundle left in the loop
variable by the last optimization iteration — a bundle at scale 1/8, not
the native-resolution bundle (scale 1) fetched at the start — although
it does run with gradient tracking disabled.  With both optimizations
off, the final render does use the native bundle. -/
theorem c1_final_render_scaled :
    final_render cfgPose initState = { scale := 1/8, noGrad := true } ∧
    ((1 : ℚ)/8) ≠ 1 ∧
    final_render cfgOff initState = { scale := 1, noGrad := true } := by
  refine ⟨?_, by norm_num, ?_⟩
  · simp [final_render, eval_image_step, pose_opt, appearance_opt, cfgPose,
      initState, optIter_eq]
  · simp [final_render, eval_image_step, pose_opt, appearance_opt, cfgOff,
      initState]

/-- C2 counterexample: a model metrics dict without throughput keys.
`get_eval_image_metrics_and_images` returns a dict containing only the
injected `image_idx` and `num_rays`; `num_rays_per_sec` and `fps` are
absent, so the returned dict does not contain all four injected keys. -/
theorem c2_missing_throughput_keys :
    get_eval_image_metrics_and_images 3 4 5 [] =
      some [("image_idx", 3), ("num_rays", 20)] ∧
    dlookup "num_rays_per_sec" [(("image_idx" : String), (3 : ℚ)), ("num_rays", 20)] = none ∧
    dlookup "fps" [(("image_idx" : String), (3 : ℚ)), ("num_rays", 20)] = none := by
  decide

/-- C2 (amended): the single-image evaluation protocol injects exactly
`image_idx` (the image's index) and `num_rays` (the bundle length,
`height * width`) into the model's metrics dict; it does not inject
`num_rays_per_sec` or `fps` (those are injected only by the per-image
step of `get_average_eval_image_metrics`). -/
theorem c2_injected_keys (idx height width : ℕ) (md : MetricsDict)
    (h1 : dlookup "image_idx" md = none) (h2 : dlookup "num_rays" md = none) :
    ∃ d, get_eval_image_metrics_and_images idx height width md = some d ∧
      dlookup "image_idx" d = some (idx : ℚ) ∧
      dlookup "num_rays" d = some ((height * width : ℕ) : ℚ) ∧
      (dlookup "num_rays_per_sec" md = none → dlookup "num_rays_per_sec" d = none) ∧
      (dlookup "fps" md = none → dlookup "fps" d = none) := by
  have hni : dlookup "num_rays" (md ++ [("image_idx", (idx : ℚ))]) = none :=
    dlookup_inject_other _ (by decide) h2
  refine ⟨md ++ [("image_idx", (idx : ℚ))] ++ [("num_rays", ((height * width : ℕ) : ℚ))],
    ?_, ?_, ?_, ?_, ?_⟩
  · simp only [get_eval_image_metrics_and_images, injectKey_of_absent _ h1,
      Option.bind_some]
    exact injectKey_of_absent _ hni
  · exact dlookup_append_some _ (dlookup_inject_self _ h1)
  · exact dlookup_inject_self _ hni
  · intro h
    exact dlookup_inject_other _ (by decide)
      (dlookup_inject_other _ (by decide) h)
  · intro h
    exact dlookup_inject_other _ (by decide)
      (dlookup_inject_other _ (by decide) h)

/-- C2 witness: the amended statement at a concrete input. -/
theorem c2_witness :
    ∃ d, get_eval_image_metrics_and_images 3 4 5 [] = some d ∧
      dlookup "image_idx" d = some ((3 : ℕ) : ℚ) ∧
      dlookup "num_rays" d = some ((4 * 5 : ℕ) : ℚ) ∧
      (dlookup "num_rays_per_sec" ([] : MetricsDict) = none →
        dlookup "num_rays_per_sec" d = none) ∧
      (dlookup "fps" ([] : MetricsDict) = none → dlookup "fps" d = none) :=
  c2_injected_keys 3 4 5 [] (by decide) (by decide)

/-- C3 counterexample: a model starting in inference (eval) mode leaves
`get_eval_loss_dict` in trainable mode, not in its starting mode. -/
theorem c3_mode_not_restored :
    runMode Mode.eval (VanillaPipeline.get_eval_loss_dict 0) = Mode.train ∧
    Mode.train ≠ Mode.eval := by
  decide

/-- C3 (amended): `get_eval_loss_dict` — both the `VanillaPipeline`
override and the base `Pipeline` version — always returns with the model
in trainable mode (`self.train()` on exit), whatever mode it started in;
the starting mode is preserved only when it was already trainable. -/
theorem c3_always_train_after (init : Mode) (step world_size : ℕ) :
    runMode init (VanillaPipeline.get_eval_loss_dict step) = Mode.train ∧
    runMode init (Pipeline.get_eval_loss_dict world_size step) = Mode.train := by
  constructor
  · rfl
  · by_cases h : 1 < world_size <;>
      simp [Pipeline.get_eval_loss_dict, runMode, h]

/-- C4 counterexample: with multiple cooperating workers, the
`VanillaPipeline` overrides (which the vanilla pipeline actually runs,
and which never read `world_size`) fetch the batch without any
`set_epoch` call; and even the base `Pipeline.get_train_loss_dict` skips
`set_epoch` at `step = 0` with `world_size = 2`. -/
theorem c4_vanilla_no_set_epoch :
    VanillaPipeline.get_train_loss_dict 5 = [Ev.nextTrain 5] ∧
    Ev.setEpochTrain 5 ∉ VanillaPipeline.get_train_loss_dict 5 ∧
    Ev.setEpochEval 7 ∉ VanillaPipeline.get_eval_loss_dict 7 ∧
    Pipeline.get_train_loss_dict 2 0 = [Ev.nextTrain 0] := by
  decide

/-- C4 (amended): only the abstract base `Pipeline` versions call
`set_epoch`: `Pipeline.get_train_loss_dict` calls
`train_sampler.set_epoch(step)` before fetching when `world_size > 1`
and `step ≠ 0`, and `Pipeline.get_eval_loss_dict` calls
`eval_sampler.set_epoch(step)` before fetching whenever
`world_size > 1`; the `VanillaPipeline` overrides never call
`set_epoch`. -/
theorem c4_set_epoch_behavior :
    (∀ world_size step : ℕ, 1 < world_size → step ≠ 0 →
      Pipeline.get_train_loss_dict world_size step =
        [Ev.setEpochTrain step, Ev.nextTrain step]) ∧
    (∀ world_size step : ℕ, 1 < world_size →
      Pipeline.get_eval_loss_dict world_size step =
        [Ev.setMode Mode.eval, Ev.setEpochEval step, Ev.nextEval step,
         Ev.setMode Mode.train]) ∧
    (∀ step st : ℕ,
      Ev.setEpochTrain st ∉ VanillaPipeline.get_train_loss_dict step ∧
      Ev.setEpochEval st ∉ VanillaPipeline.get_eval_loss_dict step) := by
  refine ⟨?_, ?_, ?_⟩
  · intro ws st h1 h2
    simp [Pipeline.get_train_loss_dict, h1, h2]
  · intro ws st h1
    simp [Pipeline.get_eval_loss_dict, h1]
  · intro st st'
    constructor <;>
      simp [VanillaPipeline.get_train_loss_dict, VanillaPipeline.get_eval_loss_dict]

/-- C4 witness: the amended statement at `world_size = 2`, `step = 3`. -/
theorem c4_witness :
    Pipeline.get_train_loss_dict 2 3 = [Ev.setEpochTrain 3, Ev.nextTrain 3] ∧
    Pipeline.get_eval_loss_dict 2 3 =
      [Ev.setMode Mode.eval, Ev.setEpochEval 3, Ev.nextEval 3, Ev.setMode Mode.train] :=
  ⟨c4_set_epoch_behavior.1 2 3 (by decide) (by decide),
   c4_set_epoch_behavior.2.1 2 3 (by decide)⟩

/-- C5 counterexample: two dicts with different key sets (the second has
key `a`, the first does not) aggregate successfully to the empty dict —
the extra key is silently omitted, not an error. -/
theorem c5_inconsistent_keys_not_detected :
    aggregateMetrics [[], [("a", (1 : ℚ))]] = some [] ∧
    ("a" : String) ∈ keys [(("a" : String), (1 : ℚ))] ∧
    ("a" : String) ∉ keys ([] : MetricsDict) :=
  ⟨rfl, by decide, by decide⟩

/-- C5 (amended): aggregation aborts with no partial result when the
list of per-image metrics dicts is empty (`IndexError` on
`metrics_dict_list[0]`) and when any key of the first dict is missing
from some dict in the list (`KeyError`); keys absent from the first dict
but present in later dicts are silently omitted instead. -/
theorem c5_failure_modes :
    aggregateMetrics [] = none ∧
    ∀ (d0 : MetricsDict) (rest : List MetricsDict) (k : String),
      k ∈ keys d0 → ∀ d ∈ d0 :: rest, dlookup k d = none →
      aggregateMetrics (d0 :: rest) = none := by
  refine ⟨rfl, ?_⟩
  intro d0 rest k hk d hd hmiss
  have hall : lookupAll k (d0 :: rest) = none := lookupAll_of_miss hd hmiss
  show aggKeys (d0 :: rest) d0 = none
  exact aggKeys_none_of_miss hall d0 hk

/-- C5 witness: a key of the first dict missing from the second dict
makes aggregation abort. -/
theorem c5_witness :
    aggregateMetrics [[(("a" : String), (1 : ℚ))], []] = none :=
  c5_failure_modes.2 [("a", 1)] [[]] "a" (by decide) [] (by decide) (by decide)

/-- C6 counterexample: `str.replace("module.", "")` deletes an interior
occurrence of `module.` even where it is not a name prefix, so a key
with no `module.` prefix is still rewritten, unlike the claimed
prefix-stripping (captured by `specStripModule`). -/
theorem c6_substring_replacement :
    load_pipeline "val" [(("a.module.b" : String), (0 : ℚ))] =
      [(("a.b" : String), (0 : ℚ))] ∧
    specStripModule "a.module.b" = "a.module.b" ∧
    ("a.b" : String) ≠ "a.module.b" := by
  refine ⟨rfl, rfl, by decide⟩

/-- C6 (amended): `load_pipeline` replaces every occurrence of the
substring `module.` in each key (which strips the distributed-wrapper
prefix in the ordinary case), and in inference mode removes the six
training-time bookkeeping keys before applying the state: the
checkpoint `[module.model.w ↦ t1, datamanager.train_camera_optimizer.pose_adjustment ↦ t2]`
loaded in inference mode applies exactly `[model.w ↦ t1]`, and no pruned
key ever reaches `load_state_dict` in inference mode. -/
theorem c6_load_pipeline_behavior (t1 t2 : ℚ) (state : List (String × ℚ)) :
    load_pipeline "inference"
      [("module.model.w", t1),
       ("datamanager.train_camera_optimizer.pose_adjustment", t2)] =
      [("model.w", t1)] ∧
    ∀ kv ∈ load_pipeline "inference" state, kv.1 ∉ prunedKeys := by
  constructor
  · rfl
  · intro kv hkv
    have hform : load_pipeline "inference" state =
        (state.map (fun kv => (pyReplaceModule kv.1, kv.2))).filter
          (fun kv => decide (kv.1 ∉ prunedKeys)) := by
      simp [load_pipeline]
    rw [hform] at hkv
    exact of_decide_eq_true (List.mem_filter.mp hkv).2

/-- C6 witness: the amended statement at a concrete checkpoint. -/
theorem c6_witness :
    load_pipeline "inference"
      [(("module.model.w" : String), (1 : ℚ)),
       (("datamanager.train_camera_optimizer.pose_adjustment" : String), (2 : ℚ))] =
      [(("model.w" : String), (1 : ℚ))] ∧
    (("model.w" : String), (3 : ℚ)).1 ∉ prunedKeys :=
  ⟨(c6_load_pipeline_behavior 1 2 []).1,
   (c6_load_pipeline_behavior 1 2 [("module.model.w", 3)]).2 ("model.w", 3)
     (by decide)⟩

/-- C7: for any non-empty list of per-image metrics dicts that
aggregates successfully, the aggregated value of each key of the first
dict is the arithmetic mean — the sum of the per-image values for that
key divided by the number of images. -/
theorem c7_aggregate_is_mean (l : List MetricsDict) (d0 : MetricsDict)
    (rest : List MetricsDict) (m : MetricsDict) (k : String) (vs : List ℚ)
    (hl : l = d0 :: rest) (hagg : aggregateMetrics l = some m)
    (hvs : lookupAll k l = some vs) (hk : k ∈ keys d0) :
    dlookup k m = some (vs.sum / (l.length : ℚ)) := by
  subst hl
  have hlen := lookupAll_length hvs
  have h := aggKeys_lookup hvs d0 m hagg hk
  rwa [hlen] at h

/-- C7 witness: a 2-image dataset yielding psnr 20 and psnr 30
aggregates to psnr (20 + 30) / 2 = 25. -/
theorem c7_witness :
    dlookup "psnr" [(("psnr" : String), (25 : ℚ))] =
      some (([20, 30] : List ℚ).sum /
        (([[("psnr", 20)], [("psnr", 30)]] : List MetricsDict).length : ℚ)) :=
  c7_aggregate_is_mean [[("psnr", 20)], [("psnr", 30)]] [("psnr", 20)]
    [[("psnr", 30)]] [("psnr", 25)] "psnr" [20, 30] rfl
    (by norm_num [aggregateMetrics, aggKeys, lookupAll])
    (by norm_num [lookupAll]) (by decide)

/-- C8: after either test-time-optimization branch (camera-pose or
appearance, any iteration count, enabled or not), the camera's
resolution scale factor equals its value before the branch: it is
multiplied by `eval_image_scale_factor` at entry and by its reciprocal
at exit, and the iterations never touch it. -/
theorem c8_camera_scale_roundtrip (cfg : Config) (s : LoopState)
    (hf : cfg.eval_image_scale_factor ≠ 0) :
    (pose_opt cfg s).camScale = s.camScale ∧
    (appearance_opt cfg s).camScale = s.camScale := by
  constructor
  · by_cases h : cfg.eval_optimize_cameras
    · simp [pose_opt, h, optIter_eq, mul_assoc, mul_inv_cancel₀ hf]
    · simp [pose_opt, h]
  · by_cases h : cfg.eval_optimize_appearance
    · simp [appearance_opt, h, optIter_eq, mul_assoc, mul_inv_cancel₀ hf]
    · simp [appearance_opt, h]

/-- C8 witness: the round-trip law at the default scale factor 1/8. -/
theorem c8_witness :
    (pose_opt cfgPose initState).camScale = initState.camScale ∧
    (appearance_opt cfgPose initState).camScale = initState.camScale :=
  c8_camera_scale_roundtrip cfgPose initState (by norm_num [cfgPose])

/-- C9: whenever the model-produced metrics dict already contains one of
the injected keys, the operation that injects that key aborts with an
assertion failure and no partial result — the existing value is never
overwritten: `image_idx` and `num_rays` abort
`get_eval_image_metrics_and_images`, `num_rays_per_sec` and `fps` abort
the throughput injection of `get_average_eval_image_metrics`. -/
theorem c9_duplicate_key_aborts :
    (∀ (idx height width : ℕ) (md : MetricsDict) (v : ℚ),
      dlookup "image_idx" md = some v →
      get_eval_image_metrics_and_images idx height width md = none) ∧
    (∀ (idx height width : ℕ) (md : MetricsDict) (v : ℚ),
      dlookup "num_rays" md = some v →
      get_eval_image_metrics_and_images idx height width md = none) ∧
    (∀ (height width : ℕ) (elapsed : ℚ) (md : MetricsDict) (v : ℚ),
      dlookup "num_rays_per_sec" md = some v →
      injectThroughput height width elapsed md = none) ∧
    (∀ (height width : ℕ) (elapsed : ℚ) (md : MetricsDict) (v : ℚ),
      dlookup "fps" md = some v →
      injectThroughput height width elapsed md = none) := by
  refine ⟨?_, ?_, ?_, ?_⟩
  · intro idx height width md v hv
    simp [get_eval_image_metrics_and_images, injectKey_of_present _ _ hv]
  · intro idx height width md v hv
    cases hii : dlookup "image_idx" md with
    | none =>
      have hv2 : dlookup "num_rays" (md ++ [("image_idx", (idx : ℚ))]) = some v :=
        dlookup_append_some _ hv
      simp [get_eval_image_metrics_and_images, injectKey_of_absent _ hii,
        injectKey_of_present _ _ hv2]
    | some w =>
      simp [get_eval_image_metrics_and_images, injectKey_of_present _ _ hii]
  · intro height width elapsed md v hv
    simp [injectThroughput, injectKey_of_present _ _ hv]
  · intro height width elapsed md v hv
    cases hnr : dlookup "num_rays_per_sec" md with
    | none =>
      have hv2 : dlookup "fps"
          (md ++ [("num_rays_per_sec",
            ((height * width : ℕ) : ℚ) / elapsed)]) = some v :=
        dlookup_append_some _ hv
      simp only [injectThroughput, injectKey_of_absent _ hnr, Option.bind_some]
      exact injectKey_of_present _ _ hv2
    | some w =>
      simp [injectThroughput, injectKey_of_present _ _ hnr]

/-- C9 witness: each of the four keys, already present, aborts the
corresponding injection. -/
theorem c9_witness :
    get_eval_image_metrics_and_images 0 2 2 [("image_idx", 9)] = none ∧
    get_eval_image_metrics_and_images 0 2 2 [("num_rays", 9)] = none ∧
    injectThroughput 2 2 1 [("num_rays_per_sec", 9)] = none ∧
    injectThroughput 2 2 1 [("fps", 9)] = none :=
  ⟨c9_duplicate_key_aborts.1 0 2 2 _ 9 (by decide),
   c9_duplicate_key_aborts.2.1 0 2 2 _ 9 (by decide),
   c9_duplicate_key_aborts.2.2.1 2 2 1 _ 9 (by decide),
   c9_duplicate_key_aborts.2.2.2 2 2 1 _ 9 (by decide)⟩

/-- C10: whenever `get_average_eval_image_metrics` returns successfully,
the model is left in trainable mode (`self.train()` runs just before
both return paths), whatever mode it started in. -/
theorem c10_train_after_average (cfg : Config) (num_images : ℕ)
    (s : LoopState) (mdl : List MetricsDict) (r : LoopState × MetricsDict)
    (h : get_average_eval_image_metrics cfg num_images s mdl = some r) :
    r.1.mode = Mode.train := by
  simp only [get_average_eval_image_metrics, Option.map_eq_some'] at h
  obtain ⟨m, _, rfl⟩ := h
  rfl

/-- C10 witness: a successful run (2 images, pose optimization on,
model starting in eval mode) returns with the model in train mode. -/
theorem c10_witness :
    ∃ r : LoopState × MetricsDict,
      get_average_eval_image_metrics cfgPose 2 initState
        [[("psnr", 20)], [("psnr", 30)]] = some r ∧
      r.1.mode = Mode.train := by
  have hagg : aggregateMetrics [[("psnr", (20 : ℚ))], [("psnr", 30)]] =
      some [("psnr", 25)] := by
    norm_num [aggregateMetrics, aggKeys, lookupAll]
  have h : get_average_eval_image_metrics cfgPose 2 initState
      [[("psnr", 20)], [("psnr", 30)]] =
      some ({ evalLoop cfgPose 2 { initState with mode := Mode.eval } with
                mode := Mode.train }, [("psnr", 25)]) := by
    simp [get_average_eval_image_metrics, hagg]
  exact ⟨_, h, c10_train_after_average cfgPose 2 initState _ _ h⟩

end Nerfstudio
